import Mathlib

/-!
Shallow embedding of `tap_salesforce/salesforce.py` (s7clarke10/tap-salesforce).

The Python module drives Salesforce REST and Bulk API extraction: a quota
governor reading the `Sforce-Limit-Info` response header, an OAuth login URL
choice, SOQL bulk-query construction from a catalog entry and replication
state, batch-status polling, and CSV result streaming.  Pure logic is
translated to executable Lean definitions; HTTP and library calls
(`requests`, `csv`, `xmltodict`) are modelled at the boundary the code
configures them (parsed rows, parsed XML children), with the code's own
decisions - regex, arithmetic, branch structure, `force_list` - embedded
faithfully.  Python float arithmetic is modelled with exact rationals;
Python `int()` truncation toward zero is `pyInt` below.
-/

namespace TapSalesforce

/-- Constant `BATCH_STATUS_POLLING_SLEEP = 5` (seconds) from salesforce.py. -/
def BATCH_STATUS_POLLING_SLEEP : Nat := 5

/-- Python `int()` on a real value truncates toward zero. -/
def pyInt (q : ℚ) : ℤ := if q < 0 then ⌈q⌉ else ⌊q⌋

/-- Drop a literal character sequence from the front of a list, or fail. -/
def dropLit : List Char → List Char → Option (List Char)
  | [], cs => some cs
  | _ :: _, [] => none
  | p :: ps, c :: cs => if c = p then dropLit ps cs else none

/-- Value of a decimal digit string (used after an all-digit check). -/
def digitsToNat (cs : List Char) : ℕ :=
  cs.foldl (fun n c => 10 * n + (c.toNat - 48)) 0

/-- Embeds the regex match `re.search('^api-usage=(\d+)/(\d+)$', s)` at
line 119 of salesforce.py: the whole string is `api-usage=`, one or more
digits, `/`, one or more digits; on success returns the two numbers. -/
def parseApiUsage (s : String) : Option (ℕ × ℕ) :=
  match dropLit "api-usage=".data s.data with
  | none => none
  | some rest =>
    let r := rest.takeWhile Char.isDigit
    let rest2 := rest.dropWhile Char.isDigit
    match rest2 with
    | '/' :: a =>
      if r ≠ [] ∧ a ≠ [] ∧ a.all Char.isDigit then
        some (digitsToNat r, digitsToNat a)
      else none
    | _ => none

/-- The slice of `Salesforce.__init__` state the quota governor and login
read: the two configured thresholds, the attempted-request counter, and the
sandbox flag. -/
structure Salesforce where
  quota_percent_per_run : ℚ
  quota_percent_total : ℚ
  rest_requests_attempted : ℕ
  is_sandbox : Bool
deriving DecidableEq, Repr

/-- A Python value as far as `is_sandbox == 'true'` can observe it: a string,
a boolean, or None.  Python `==` between a string and a non-string is False. -/
inductive PyVal where
  | str (s : String)
  | pybool (b : Bool)
  | pynone
deriving DecidableEq, Repr

/-- Python `is_sandbox == 'true'` (line 108): true only for the exact
string 'true'. -/
def pyEqTrueStr : PyVal → Bool
  | .str s => s == "true"
  | _ => false

/-- Embeds `Salesforce.__init__` (lines 91-109): thresholds default to 25
and 80 when the arguments are None, the counter starts at 0, and
`is_sandbox = True if is_sandbox == 'true' else False`. -/
def Salesforce.init (quota_percent_per_run quota_percent_total : Option ℚ)
    (is_sandbox : PyVal) : Salesforce :=
  { quota_percent_per_run := quota_percent_per_run.getD 25
    quota_percent_total := quota_percent_total.getD 80
    rest_requests_attempted := 0
    is_sandbox := pyEqTrueStr is_sandbox }

/-- Embeds the login URL selection in `login` (lines 162-166). -/
def loginUrl (is_sandbox : Bool) : String :=
  if is_sandbox then "https://test.salesforce.com/services/oauth2/token"
  else "https://login.salesforce.com/services/oauth2/token"

/-- Outcome of `check_rest_quota_usage`: the regex did not match (silent
return), Python ZeroDivisionError on `allotted = 0`, one of the two
`TapSalesforceQuotaExceededException` raises, or a normal return. -/
inductive QuotaOutcome where
  | noMatch
  | zeroDivError
  | totalExceeded
  | perRunExceeded
  | ok
deriving DecidableEq, Repr

/-- The `elif` condition at line 135 of salesforce.py together with the
computation of `max_requests_for_run = int((quota_percent_per_run * allotted)
/ 100)` at line 129: the per-run check fires when the attempted counter
strictly exceeds that truncated maximum. -/
def perRunCheckRaises (rest_requests_attempted : ℕ)
    (quota_percent_per_run : ℚ) (allotted : ℕ) : Bool :=
  (rest_requests_attempted : ℤ) > pyInt ((quota_percent_per_run * (allotted : ℚ)) / 100)

/-- Embeds `check_rest_quota_usage` (lines 118-138).  The header value is
matched against `^api-usage=(\d+)/(\d+)$`; on no match the function returns
silently.  Otherwise `percent_used_from_total = remaining / allotted * 100`
(Python true division; `allotted = 0` raises ZeroDivisionError first), and
the total-quota check runs before the per-run check (`if`/`elif`). -/
def check_rest_quota_usage (sf : Salesforce) (limitInfo : String) : QuotaOutcome :=
  match parseApiUsage limitInfo with
  | none => .noMatch
  | some (remaining, allotted) =>
    if allotted = 0 then .zeroDivError
    else
      let percent_used_from_total : ℚ := (remaining : ℚ) / (allotted : ℚ) * 100
      if percent_used_from_total > sf.quota_percent_total then .totalExceeded
      else if perRunCheckRaises sf.rest_requests_attempted sf.quota_percent_per_run allotted then
        .perRunExceeded
      else .ok

/-- True when `check_rest_quota_usage` raises either
`TapSalesforceQuotaExceededException` (total or per-run). -/
def raisesQuotaError : QuotaOutcome → Bool
  | .totalExceeded => true
  | .perRunExceeded => true
  | _ => false

/-- Embeds the quota step of `_make_request` (lines 156-158): when the
response has an `Sforce-Limit-Info` header (any value), the attempted
counter is incremented and then `check_rest_quota_usage` runs on the updated
state; when the header is absent nothing happens.  Returns the new state and
the quota outcome (`none` = the guarded block was skipped). -/
def makeRequestQuotaStep (sf : Salesforce) (limitInfo : Option String) :
    Salesforce × Option QuotaOutcome :=
  match limitInfo with
  | none => (sf, none)
  | some h =>
    let sf' := { sf with rest_requests_attempted := sf.rest_requests_attempted + 1 }
    (sf', some (check_rest_quota_usage sf' h))

/-- One entry of `catalog_entry.schema.properties`: what the list
comprehension at lines 218-219 reads from a property. -/
structure SchemaProperty where
  selected : Bool
  inclusion : String
deriving DecidableEq, Repr

/-- The slice of a catalog entry `_build_bulk_query_batch` reads:
`tap_stream_id`, `stream`, `schema.properties` (an ordered name-to-property
mapping, in catalog-declared order), and `replication_key`. -/
structure CatalogEntry where
  tap_stream_id : String
  stream : String
  properties : List (String × SchemaProperty)
  replication_key : Option String
deriving DecidableEq, Repr

/-- Replication state: stream name, then replication key, to bookmark value. -/
abbrev TapState := List (String × List (String × String))

/-- Embeds `singer.get_bookmark(state, tap_stream_id, key)`: the nested
lookup `state['bookmarks'][tap_stream_id][key]`, returning None when any
level is absent. -/
def get_bookmark (state : TapState) (tap_stream_id key : String) : Option String :=
  match state.lookup tap_stream_id with
  | none => none
  | some m => m.lookup key

/-- Python `'{}'.format(v)` applied to a bookmark that may be None:
None renders as the string `None`. -/
def formatBookmark : Option String → String
  | some v => v
  | none => "None"

/-- Python truthiness of `replication_key` at line 227: None and the empty
string are falsy, any other string is truthy. -/
def truthyKey : Option String → Bool
  | none => false
  | some s => !s.isEmpty

/-- The list comprehension at lines 218-219: names of properties that are
selected or have inclusion `automatic`, in catalog-declared order. -/
def selectedFieldNames (catalog_entry : CatalogEntry) : List String :=
  (catalog_entry.properties.filter
    (fun p => p.2.selected || p.2.inclusion == "automatic")).map Prod.fst

/-- Embeds `_build_bulk_query_batch` (lines 217-239): builds
`SELECT <fields> FROM <stream>` and appends
`WHERE <rk> >= <bookmark> ORDER BY <rk> ASC` whenever the replication key is
truthy, formatting whatever `get_bookmark` returned (None included). -/
def _build_bulk_query_batch (catalog_entry : CatalogEntry) (state : TapState) : String :=
  let selected_properties := selectedFieldNames catalog_entry
  let where_clause :=
    match catalog_entry.replication_key with
    | some rk =>
      if rk.isEmpty then ""
      else " WHERE " ++ rk ++ " >= "
        ++ formatBookmark (get_bookmark state catalog_entry.tap_stream_id rk)
        ++ " ORDER BY " ++ rk ++ " ASC"
    | none => ""
  let query := "SELECT " ++ String.intercalate "," selected_properties
    ++ " FROM " ++ catalog_entry.stream
  query ++ where_clause

/-- The Python value stored under `'type'` in a property schema: either a
bare type string or the two-element list `["null", t]` from line 82. -/
inductive JsonType where
  | single (t : String)
  | nullAnd (t : String)
deriving DecidableEq, Repr

/-- The dict built by `sf_type_to_property_schema`: `inclusion` and
`selected` always present, `type` and `format` only when set. -/
structure PropertySchema where
  inclusion : String
  selected : Bool
  type : Option JsonType
  format : Option String
deriving DecidableEq, Repr

/-- `STRING_TYPES` (lines 24-37). -/
def STRING_TYPES : List String :=
  ["id", "string", "picklist", "textarea", "phone", "url", "reference",
   "multipicklist", "combobox", "encryptedstring", "email", "complexvalue"]

/-- `NUMBER_TYPES` (lines 39-43). -/
def NUMBER_TYPES : List String := ["double", "currency", "percent"]

/-- `DATE_TYPES` (lines 45-48). -/
def DATE_TYPES : List String := ["datetime", "date"]

/-- Embeds `sf_type_to_property_schema` (lines 50-84).  The branch order and
early returns follow the source: `anyType` and `base64` return before the
nillable widening; every other recognised type sets `type` and is then
widened to `["null", t]` when nillable; an unrecognised label raises
`TapSalesforceException`. -/
def sf_type_to_property_schema (sf_type : String) (nillable : Bool)
    (inclusion : String) (selected : Bool) : Except String PropertySchema :=
  let base : PropertySchema :=
    { inclusion := inclusion, selected := selected, type := none, format := none }
  let widen : PropertySchema → PropertySchema := fun ps =>
    if nillable then
      match ps.type with
      | some (.single t) => { ps with type := some (.nullAnd t) }
      | _ => ps
    else ps
  if sf_type ∈ STRING_TYPES then
    .ok (widen { base with type := some (.single "string") })
  else if sf_type ∈ DATE_TYPES then
    .ok (widen { base with format := some "date-time", type := some (.single "string") })
  else if sf_type = "boolean" then
    .ok (widen { base with type := some (.single "boolean") })
  else if sf_type ∈ NUMBER_TYPES then
    .ok (widen { base with type := some (.single "number") })
  else if sf_type = "address" then
    .ok (widen { base with type := some (.single "string") })
  else if sf_type = "int" then
    .ok (widen { base with type := some (.single "integer") })
  else if sf_type = "time" then
    .ok (widen { base with type := some (.single "string") })
  else if sf_type = "anyType" then
    .ok base
  else if sf_type = "base64" then
    .ok { base with inclusion := "unsupported" }
  else
    .error ("Found unsupported type: " ++ sf_type)

/-- Every type label `sf_type_to_property_schema` recognises; any label
outside this list hits the final `else` and raises. -/
def supportedSfTypes : List String :=
  STRING_TYPES ++ DATE_TYPES ++ ["boolean"] ++ NUMBER_TYPES
    ++ ["address", "int", "time", "anyType", "base64"]

/-- The CSV record loop of `_get_batch_results` (lines 278-282): the first
parsed row is the header; each following row is zipped positionally with the
header into a record.  An empty row stream makes `next(csv_stream)` raise,
modelled as `none`.  CSV tokenisation itself is done by Python's `csv`
module; its output - a stream of rows of strings - is this function's
input. -/
def streamCsvRecords (rows : List (List String)) :
    Option (List (List (String × String))) :=
  match rows with
  | [] => none
  | column_name_list :: dataRows =>
    some (dataRows.map (fun line => column_name_list.zip line))

/-- The batch-status fields read by the orchestrator (`batchInfo` from
`xmltodict.parse`): `state` and `stateMessage`. -/
structure BatchStatus where
  state : String
  stateMessage : String
deriving DecidableEq, Repr

/-- The terminal-state list at line 316. -/
def terminalBatchStates : List String := ["Completed", "Failed", "Not Processed"]

/-- Whether a batch status exits the polling loop at line 316. -/
def isTerminalBatch (st : BatchStatus) : Bool :=
  terminalBatchStates.contains st.state

/-- Loop body of `_poll_on_batch_status` (lines 312-321), fuel-bounded.
`statuses i` is the status the i-th `_get_batch` fetch returns; a
`time.sleep(BATCH_STATUS_POLLING_SLEEP)` precedes every fetch after the
first, so on success the second component is the number of 5-second sleeps
performed. -/
def pollAux (statuses : ℕ → BatchStatus) : ℕ → ℕ → Option (BatchStatus × ℕ)
  | 0, _ => none
  | fuel + 1, i =>
    if isTerminalBatch (statuses i) then some (statuses i, i)
    else pollAux statuses fuel (i + 1)

/-- Embeds `_poll_on_batch_status`: poll from the first fetch with the given
amount of fuel (the Python loop is unbounded; `none` means the fuel ran out
while every observed state was non-terminal). -/
def _poll_on_batch_status (statuses : ℕ → BatchStatus) (fuel : ℕ) :
    Option (BatchStatus × ℕ) :=
  pollAux statuses fuel 0

/-- What `bulk_query` does once polling returned a terminal status
(lines 332-334): raise carrying the state message, or hand the batch to the
result streamer.  `emptyResult` is never produced by the code; it exists to
state the spec's claimed Not-Processed behaviour. -/
inductive BulkOutcome where
  | raised (msg : String)
  | handedToStreamer
  | emptyResult
deriving DecidableEq, Repr

/-- Embeds the terminal-state dispatch of `bulk_query` (lines 332-334):
`Failed` raises `TapSalesforceException(batch_status['stateMessage'])`;
every other state falls through to `_get_batch_results`. -/
def bulkQueryDispatch (batch_status : BatchStatus) : BulkOutcome :=
  if batch_status.state == "Failed" then .raised batch_status.stateMessage
  else .handedToStreamer

/-- Modelled from the spec's words for comparison with `bulkQueryDispatch`:
on Failed raise the state message, on Completed hand off to the result
streamer, on Not Processed treat as an empty result set. -/
def specBulkQueryDispatch (batch_status : BatchStatus) : BulkOutcome :=
  if batch_status.state == "Failed" then .raised batch_status.stateMessage
  else if batch_status.state == "Not Processed" then .emptyResult
  else .handedToStreamer

/-- An xmltodict value for the `result` key: a scalar (what the library
yields for a single child element without `force_list`) or a list. -/
inductive XmlResultField where
  | scalar (s : String)
  | list (ss : List String)
deriving DecidableEq, Repr

/-- Models `xmltodict.parse(text, xml_attribs=False, force_list=...)` on a
`result-list` document, as the code's own comment at lines 258-259
describes it: the `result` children in document order; without forcing, one
child collapses to a scalar; with `force_list` containing `result` it is
always a list.  No children means no `result` key (`none`). -/
def xmltodictResultField (children : List String) (forceResultList : Bool) :
    Option XmlResultField :=
  match children, forceResultList with
  | [], _ => none
  | [x], false => some (.scalar x)
  | xs, _ => some (.list xs)

/-- Python iteration over the parsed `result` value: a list iterates its
elements; a scalar string would iterate its characters. -/
def pyIterate : XmlResultField → List String
  | .list ss => ss
  | .scalar s => s.data.map (fun c => String.mk [c])

/-- Embeds the result-id resolution of `_get_batch_results` (lines 256-266):
parse with `force_list={'result'}`, take the `result` value, and iterate it;
the loop issues one result fetch per iterated element, in order.  `none`
models the TypeError Python raises when the key is absent. -/
def getBatchResultIds (children : List String) : Option (List String) :=
  (xmltodictResultField children true).map pyIterate

/-- A status sequence used to instantiate the polling theorem: two
non-terminal fetches, then `Completed`. -/
def pollWitnessStatuses : ℕ → BatchStatus :=
  fun n => if n < 2 then ⟨"InProgress", ""⟩ else ⟨"Completed", ""⟩

/-- Claim C2, counterexample: after polling ends in the `Not Processed`
state, `bulk_query` does not treat the batch as an empty result set - the
`if` at line 332 only special-cases `Failed`, so `Not Processed` falls
through to `_get_batch_results` exactly like `Completed`, contradicting the
claimed empty-result handling (shown against the spec-modelled dispatch). -/
theorem C2_not_processed_counterexample :
    bulkQueryDispatch ⟨"Not Processed", "m"⟩ = BulkOutcome.handedToStreamer
    ∧ bulkQueryDispatch ⟨"Not Processed", "m"⟩ ≠ BulkOutcome.emptyResult
    ∧ specBulkQueryDispatch ⟨"Not Processed", "m"⟩ = BulkOutcome.emptyResult := by
  exact ⟨rfl, by decide, rfl⟩

/-- Claim C2, amended: after polling reaches a terminal state, `bulk_query`
raises an error carrying the platform-reported state message when the state
is `Failed`, and hands off to the result streamer for every other state -
`Completed` and `Not Processed` alike (`Not Processed` gets no
empty-result special case). -/
theorem C2_bulk_query_terminal_dispatch (st : BatchStatus) :
    (st.state = "Failed" → bulkQueryDispatch st = BulkOutcome.raised st.stateMessage)
    ∧ (st.state ≠ "Failed" → bulkQueryDispatch st = BulkOutcome.handedToStreamer) := by
  unfold bulkQueryDispatch
  constructor
  · intro h
    simp [h]
  · intro h
    simp [h]

/-- Claim C2, witness: a `Completed` batch is handed to the streamer and a
`Failed` batch raises its state message. -/
theorem C2_bulk_query_terminal_dispatch_witness :
    bulkQueryDispatch ⟨"Completed", ""⟩ = BulkOutcome.handedToStreamer
    ∧ bulkQueryDispatch ⟨"Failed", "InvalidBatch: field X"⟩
        = BulkOutcome.raised "InvalidBatch: field X" :=
  ⟨(C2_bulk_query_terminal_dispatch ⟨"Completed", ""⟩).2 (by decide),
   (C2_bulk_query_terminal_dispatch ⟨"Failed", "InvalidBatch: field X"⟩).1 rfl⟩

/-- Claim C7: for every CSV result body, the streamer takes the first row as
the header and zips each subsequent row positionally with the header into a
record, one record per data row; in particular header `Id, Name` with data
row `001, Acme` yields exactly the one record `Id = 001, Name = Acme`. -/
theorem C7_csv_header_zip :
    streamCsvRecords [["Id", "Name"], ["001", "Acme"]]
        = some [[("Id", "001"), ("Name", "Acme")]]
    ∧ ∀ (header : List String) (rows : List (List String)),
        streamCsvRecords (header :: rows)
            = some (rows.map (fun line => header.zip line))
        ∧ (streamCsvRecords (header :: rows)).map List.length = some rows.length := by
  refine ⟨rfl, fun header rows => ⟨rfl, ?_⟩⟩
  simp [streamCsvRecords]

/-- Claim C9: with `force_list` applied to `result`, the result-id document
always parses to an ordered list (a single `result` child included, which
without forcing would collapse to a scalar), and the streaming loop iterates
once per id in document order. -/
theorem C9_result_ids_always_list (ids : List String) (h : ids ≠ []) :
    xmltodictResultField ids true = some (XmlResultField.list ids)
    ∧ getBatchResultIds ids = some ids
    ∧ (∀ x, getBatchResultIds [x] = some [x])
    ∧ (∀ x, xmltodictResultField [x] false = some (XmlResultField.scalar x)) := by
  obtain ⟨x, xs, rfl⟩ : ∃ y ys, ids = y :: ys := by
    cases ids with
    | nil => exact absurd rfl h
    | cons a as => exact ⟨a, as, rfl⟩
  refine ⟨?_, ?_, fun y => rfl, fun y => rfl⟩
  · cases xs <;> rfl
  · cases xs <;> rfl

/-- Claim C9, witness: a single-result response is a one-element list, not
a scalar, and resolves to itself as the list of ids. -/
theorem C9_result_ids_witness :
    xmltodictResultField ["752x000000000011"] true
        = some (XmlResultField.list ["752x000000000011"])
    ∧ getBatchResultIds ["752x000000000011"] = some ["752x000000000011"] :=
  ⟨(C9_result_ids_always_list ["752x000000000011"] (by decide)).1,
   (C9_result_ids_always_list ["752x000000000011"] (by decide)).2.1⟩

/-- Claim C10: the constructor turns `is_sandbox` into `True` exactly when
the argument is the string `'true'`; every other value - the boolean True,
other strings, None - yields `False`, so `login` posts to the production
OAuth endpoint for all such inputs. -/
theorem C10_is_sandbox_true_string (q1 q2 : Option ℚ) (v : PyVal) :
    ((Salesforce.init q1 q2 v).is_sandbox = true ↔ v = PyVal.str "true")
    ∧ (v ≠ PyVal.str "true" →
        loginUrl (Salesforce.init q1 q2 v).is_sandbox
          = "https://login.salesforce.com/services/oauth2/token") := by
  have hs : (Salesforce.init q1 q2 v).is_sandbox = pyEqTrueStr v := rfl
  constructor
  · rw [hs]
    cases v with
    | str s => simp [pyEqTrueStr]
    | pybool b => simp [pyEqTrueStr]
    | pynone => simp [pyEqTrueStr]
  · intro hv
    have : pyEqTrueStr v = false := by
      cases v with
      | str s =>
        simp only [pyEqTrueStr, beq_eq_false_iff_ne, ne_eq]
        intro hcon
        exact hv (by rw [hcon])
      | pybool b => rfl
      | pynone => rfl
    rw [hs, this]
    rfl

/-- Claim C10, witness: the boolean True is not the string `'true'`, so the
sandbox flag stays false and login targets the production endpoint. -/
theorem C10_is_sandbox_witness :
    ((Salesforce.init none none (PyVal.pybool true)).is_sandbox = true
      ↔ PyVal.pybool true = PyVal.str "true")
    ∧ loginUrl (Salesforce.init none none (PyVal.pybool true)).is_sandbox
        = "https://login.salesforce.com/services/oauth2/token" :=
  ⟨(C10_is_sandbox_true_string none none (PyVal.pybool true)).1,
   (C10_is_sandbox_true_string none none (PyVal.pybool true)).2 (by decide)⟩

/-- Claim C6: the field-type translation maps nillable `picklist` to the
type pair `null, string`; `double` to `number`; `base64` to inclusion
`unsupported`; raises the translation error for any label outside the
recognised sets; and for every result that carries a type, the type is
widened with `null` exactly when the field is nillable. -/
theorem C6_sf_type_translation (inclusion : String) (selected : Bool) :
    sf_type_to_property_schema "picklist" true inclusion selected
        = .ok ⟨inclusion, selected, some (.nullAnd "string"), none⟩
    ∧ sf_type_to_property_schema "double" false inclusion selected
        = .ok ⟨inclusion, selected, some (.single "number"), none⟩
    ∧ sf_type_to_property_schema "base64" true inclusion selected
        = .ok ⟨"unsupported", selected, none, none⟩
    ∧ (∀ sf_type nillable, sf_type ∉ supportedSfTypes →
        sf_type_to_property_schema sf_type nillable inclusion selected
          = .error ("Found unsupported type: " ++ sf_type))
    ∧ (∀ sf_type nillable r t,
        sf_type_to_property_schema sf_type nillable inclusion selected = .ok r →
        (r.type = some (.nullAnd t) → nillable = true)
        ∧ (r.type = some (.single t) → nillable = false)) := by
  refine ⟨rfl, rfl, rfl, ?_, ?_⟩
  · intro sf_type nillable hmem
    simp only [supportedSfTypes, List.mem_append, List.mem_cons,
      List.not_mem_nil, or_false, not_or] at hmem
    obtain ⟨⟨⟨⟨h1, h2⟩, h3⟩, h4⟩, h5, h6, h7, h8, h9⟩ := hmem
    simp only [sf_type_to_property_schema]
    rw [if_neg h1, if_neg h2, if_neg h3, if_neg h4, if_neg h5, if_neg h6,
      if_neg h7, if_neg h8, if_neg h9]
  · intro sf_type nillable r t hok
    simp only [sf_type_to_property_schema] at hok
    split_ifs at hok <;>
      cases nillable <;>
        (simp only [Except.ok.injEq] at hok; subst hok; simp_all)

/-- Claim C6, witness: nillable picklist widens to the nullable string type
and the unknown label `unknown_x` raises the exact translation error. -/
theorem C6_sf_type_translation_witness :
    sf_type_to_property_schema "picklist" true "available" true
        = .ok ⟨"available", true, some (.nullAnd "string"), none⟩
    ∧ sf_type_to_property_schema "unknown_x" false "available" true
        = .error ("Found unsupported type: " ++ "unknown_x") :=
  ⟨(C6_sf_type_translation "available" true).1,
   (C6_sf_type_translation "available" true).2.2.2.1 "unknown_x" false (by decide)⟩

/-- Claim C3, counterexample: with a replication key configured but no
bookmark in state, `_build_bulk_query_batch` still appends the WHERE/ORDER
suffix - `singer.get_bookmark` returns None and the literal text `None` is
formatted into the query - whereas the claim requires a bookmark to exist
for the suffix to appear. -/
theorem C3_missing_bookmark_counterexample :
    get_bookmark [] "Account" "SystemModstamp" = none
    ∧ _build_bulk_query_batch
        ⟨"Account", "Account", [("Id", ⟨true, "available"⟩)], some "SystemModstamp"⟩ []
      = "SELECT Id FROM Account WHERE SystemModstamp >= None ORDER BY SystemModstamp ASC" := by
  exact ⟨rfl, rfl⟩

/-- Claim C3, amended: the built query is `SELECT <fields> FROM <object>`
over the selected-or-automatic properties in catalog order; the
`WHERE <rk> >= <bookmark> ORDER BY <rk> ASC` suffix is appended exactly when
the replication key is configured (truthy), with the state bookmark when one
exists and the literal `None` when none does; with no replication key there
is no WHERE/ORDER clause. -/
theorem C3_build_bulk_query_batch_shape (e : CatalogEntry) (state : TapState) :
    (∀ name, name ∈ selectedFieldNames e ↔
        ∃ p ∈ e.properties, p.1 = name
          ∧ (p.2.selected = true ∨ p.2.inclusion = "automatic"))
    ∧ (e.replication_key = none →
        _build_bulk_query_batch e state
          = "SELECT " ++ String.intercalate "," (selectedFieldNames e)
              ++ " FROM " ++ e.stream)
    ∧ (∀ rk v, e.replication_key = some rk → rk.isEmpty = false →
        get_bookmark state e.tap_stream_id rk = some v →
        _build_bulk_query_batch e state
          = "SELECT " ++ String.intercalate "," (selectedFieldNames e)
              ++ " FROM " ++ e.stream
              ++ " WHERE " ++ rk ++ " >= " ++ v ++ " ORDER BY " ++ rk ++ " ASC")
    ∧ (∀ rk, e.replication_key = some rk → rk.isEmpty = false →
        get_bookmark state e.tap_stream_id rk = none →
        _build_bulk_query_batch e state
          = "SELECT " ++ String.intercalate "," (selectedFieldNames e)
              ++ " FROM " ++ e.stream
              ++ " WHERE " ++ rk ++ " >= " ++ "None" ++ " ORDER BY " ++ rk ++ " ASC") := by
  refine ⟨?_, ?_, ?_, ?_⟩
  · intro name
    simp only [selectedFieldNames, List.mem_map, List.mem_filter,
      Bool.or_eq_true, beq_iff_eq]
    constructor
    · rintro ⟨p, ⟨hp, hsel⟩, rfl⟩
      exact ⟨p, hp, rfl, hsel⟩
    · rintro ⟨p, hp, rfl, hsel⟩
      exact ⟨p, ⟨hp, hsel⟩, rfl⟩
  · intro hrk
    simp [_build_bulk_query_batch, hrk]
  · intro rk v hrk hempty hbook
    simp [_build_bulk_query_batch, hrk, hempty, hbook, formatBookmark,
      String.append_assoc]
  · intro rk hrk hempty hbook
    simp [_build_bulk_query_batch, hrk, hempty, hbook, formatBookmark,
      String.append_assoc]

/-- Claim C3, witness: selected plus automatic fields in catalog order, and
the bookmarked incremental suffix. -/
theorem C3_build_bulk_query_batch_witness :
    _build_bulk_query_batch
        ⟨"Account", "Account",
          [("Id", ⟨true, "available"⟩), ("Name", ⟨false, "automatic"⟩),
           ("Other", ⟨false, "available"⟩)],
          some "SystemModstamp"⟩
        [("Account", [("SystemModstamp", "2020-05-01T00:00:00Z")])]
      = "SELECT Id,Name FROM Account WHERE SystemModstamp >= 2020-05-01T00:00:00Z ORDER BY SystemModstamp ASC" := by
  exact (C3_build_bulk_query_batch_shape
      ⟨"Account", "Account",
        [("Id", ⟨true, "available"⟩), ("Name", ⟨false, "automatic"⟩),
         ("Other", ⟨false, "available"⟩)],
        some "SystemModstamp"⟩
      [("Account", [("SystemModstamp", "2020-05-01T00:00:00Z")])]).2.2.1
    "SystemModstamp" "2020-05-01T00:00:00Z" rfl (by decide) (by decide)

/-- Helper: for any attempted-counter value, the total-quota outcome of
`check_rest_quota_usage` is decided by `remaining / allotted * 100 >
quota_percent_total` alone. -/
theorem check_total_outcome_iff (sf : Salesforce) (s : String) (r a : ℕ)
    (hp : parseApiUsage s = some (r, a)) (ha : a ≠ 0) :
    check_rest_quota_usage sf s = QuotaOutcome.totalExceeded
      ↔ (r : ℚ) / (a : ℚ) * 100 > sf.quota_percent_total := by
  simp only [check_rest_quota_usage, hp]
  rw [if_neg ha]
  split_ifs with h1 h2 <;> simp_all

/-- Claim C1, counterexample: the governor's raising is not characterised by
`percent > quota_percent_total` and is not independent of prior calls: with
header `api-usage=1/100` (percent = 1, under the 80 total threshold) the
call raises the per-run quota-exceeded error once 1000 requests have been
attempted, while the same header with a fresh counter does not raise. -/
theorem C1_quota_raise_counterexample :
    raisesQuotaError (check_rest_quota_usage ⟨25, 80, 1000, false⟩ "api-usage=1/100") = true
    ∧ ¬ ((1 : ℚ) / (100 : ℚ) * 100 > (80 : ℚ))
    ∧ check_rest_quota_usage ⟨25, 80, 0, false⟩ "api-usage=1/100" = QuotaOutcome.ok := by
  have hp : parseApiUsage "api-usage=1/100" = some (1, 100) := by decide
  refine ⟨?_, by norm_num, ?_⟩ <;>
    · simp only [check_rest_quota_usage, hp, raisesQuotaError, perRunCheckRaises, pyInt]
      norm_num

/-- Claim C1, amended: for every header matching `api-usage=<r>/<a>`, the
governor computes `percent = r/a*100` and raises the total-quota-exceeded
error exactly when `percent > quota_percent_total`, independent of the order
of prior calls; when the total check passes it may still raise the per-run
quota error, which does depend on the attempted-request counter. -/
theorem C1_total_quota_gate (sf : Salesforce) (s : String) (r a : ℕ)
    (hp : parseApiUsage s = some (r, a)) (ha : a ≠ 0) :
    (check_rest_quota_usage sf s = QuotaOutcome.totalExceeded
      ↔ (r : ℚ) / (a : ℚ) * 100 > sf.quota_percent_total)
    ∧ ∀ n, (check_rest_quota_usage { sf with rest_requests_attempted := n } s
          = QuotaOutcome.totalExceeded
        ↔ check_rest_quota_usage sf s = QuotaOutcome.totalExceeded) := by
  refine ⟨check_total_outcome_iff sf s r a hp ha, fun n => ?_⟩
  rw [check_total_outcome_iff _ s r a hp ha, check_total_outcome_iff sf s r a hp ha]

/-- Claim C1, witness: `api-usage=90/100` against the default 80% total
threshold, on a fresh counter. -/
theorem C1_total_quota_gate_witness :
    check_rest_quota_usage ⟨25, 80, 0, false⟩ "api-usage=90/100"
        = QuotaOutcome.totalExceeded
      ↔ (90 : ℚ) / (100 : ℚ) * 100 > (80 : ℚ) :=
  (C1_total_quota_gate ⟨25, 80, 0, false⟩ "api-usage=90/100" 90 100
    (by decide) (by decide)).1

/-- Claim C4, counterexample: the counter increment is gated on the mere
presence of the `Sforce-Limit-Info` header, not on its form: a malformed
value such as `bogus` does not match `api-usage=<r>/<a>` yet the attempted
counter is still incremented (the regex is only re-checked inside
`check_rest_quota_usage`, which then returns silently). -/
theorem C4_malformed_header_counterexample :
    parseApiUsage "bogus" = none
    ∧ (makeRequestQuotaStep ⟨25, 80, 0, false⟩ (some "bogus")).1.rest_requests_attempted = 1
    ∧ (makeRequestQuotaStep ⟨25, 80, 0, false⟩ (some "bogus")).2 = some QuotaOutcome.noMatch := by
  exact ⟨by decide, rfl, rfl⟩

/-- Claim C4, amended: `_make_request` increments the attempted counter by
exactly one if and only if the response carries the `Sforce-Limit-Info`
header at all, whatever its value; quota evaluation then runs on the
incremented state, and a value not matching `api-usage=<r>/<a>` yields the
silent no-match return (no quota evaluation, no error); an absent header is
a complete no-op. -/
theorem C4_counter_increment_on_header (sf : Salesforce) :
    makeRequestQuotaStep sf none = (sf, none)
    ∧ ∀ h, ((makeRequestQuotaStep sf (some h)).1.rest_requests_attempted
            = sf.rest_requests_attempted + 1)
        ∧ ((makeRequestQuotaStep sf (some h)).2
            = some (check_rest_quota_usage
                { sf with rest_requests_attempted := sf.rest_requests_attempted + 1 } h))
        ∧ (parseApiUsage h = none →
            (makeRequestQuotaStep sf (some h)).2 = some QuotaOutcome.noMatch) := by
  refine ⟨rfl, fun h => ⟨rfl, rfl, fun hp => ?_⟩⟩
  simp [makeRequestQuotaStep, check_rest_quota_usage, hp]

/-- Claim C4, witness: absent header is a no-op; a malformed present header
yields the silent no-match outcome (after the increment). -/
theorem C4_counter_increment_witness :
    makeRequestQuotaStep ⟨25, 80, 0, false⟩ none = (⟨25, 80, 0, false⟩, none)
    ∧ (makeRequestQuotaStep ⟨25, 80, 0, false⟩ (some "api-usage=oops")).2
        = some QuotaOutcome.noMatch :=
  ⟨(C4_counter_increment_on_header ⟨25, 80, 0, false⟩).1,
   ((C4_counter_increment_on_header ⟨25, 80, 0, false⟩).2 "api-usage=oops").2.2 (by decide)⟩

/-- Claim C5: when the total-quota check passes and the configured per-run
percentage is nonnegative (Python `int()` truncation then agrees with
floor), the per-run check raises exactly when `requests_attempted >
floor(quota_percent_per_run * allotted / 100)`. -/
theorem C5_per_run_floor (sf : Salesforce) (s : String) (r a : ℕ)
    (hp : parseApiUsage s = some (r, a)) (ha : a ≠ 0)
    (hq : 0 ≤ sf.quota_percent_per_run)
    (ht : ¬ ((r : ℚ) / (a : ℚ) * 100 > sf.quota_percent_total)) :
    check_rest_quota_usage sf s = QuotaOutcome.perRunExceeded
      ↔ (sf.rest_requests_attempted : ℤ)
          > ⌊sf.quota_percent_per_run * (a : ℚ) / 100⌋ := by
  have hnn : (0 : ℚ) ≤ sf.quota_percent_per_run * (a : ℚ) / 100 :=
    div_nonneg (mul_nonneg hq (by positivity)) (by norm_num)
  have hfloor : pyInt (sf.quota_percent_per_run * (a : ℚ) / 100)
      = ⌊sf.quota_percent_per_run * (a : ℚ) / 100⌋ := by
    unfold pyInt
    rw [if_neg (not_lt.mpr hnn)]
  simp only [check_rest_quota_usage, hp]
  rw [if_neg ha, if_neg ht]
  simp only [perRunCheckRaises, hfloor]
  split_ifs with hb <;> simp_all

/-- Claim C5, witness: with the default 25% per-run threshold and 20
allotted calls, the truncated maximum is floor(25*20/100) and the check is
pinned to that comparison for a counter of 6. -/
theorem C5_per_run_floor_witness :
    check_rest_quota_usage ⟨25, 80, 6, false⟩ "api-usage=0/20"
        = QuotaOutcome.perRunExceeded
      ↔ ((6 : ℕ) : ℤ) > ⌊(25 : ℚ) * ((20 : ℕ) : ℚ) / 100⌋ :=
  C5_per_run_floor ⟨25, 80, 6, false⟩ "api-usage=0/20" 0 20
    (by decide) (by decide) (by decide) (by simp)

/-- Helper: whatever `pollAux` returns was fetched at its index, is
terminal, and everything fetched strictly before it was non-terminal. -/
theorem pollAux_sound (statuses : ℕ → BatchStatus) :
    ∀ fuel i st k, pollAux statuses fuel i = some (st, k) →
      st = statuses k ∧ isTerminalBatch (statuses k) = true ∧ i ≤ k
        ∧ ∀ j, i ≤ j → j < k → isTerminalBatch (statuses j) = false := by
  intro fuel
  induction fuel with
  | zero =>
    intro i st k h
    simp [pollAux] at h
  | succ n ih =>
    intro i st k h
    simp only [pollAux] at h
    by_cases hb : isTerminalBatch (statuses i) = true
    · rw [if_pos hb] at h
      obtain ⟨hst, hk⟩ := Prod.mk.injEq .. ▸ Option.some.injEq .. ▸ h
      subst hk
      exact ⟨hst.symm ▸ rfl, hb, le_rfl, fun j hij hjk => absurd hjk (by omega)⟩
    · have hb' : isTerminalBatch (statuses i) = false := by
        simpa using hb
      rw [if_neg hb] at h
      obtain ⟨h1, h2, h3, h4⟩ := ih (i + 1) st k h
      refine ⟨h1, h2, by omega, fun j hij hjk => ?_⟩
      rcases eq_or_lt_of_le hij with rfl | hlt
      · exact hb'
      · exact h4 j hlt hjk

/-- Helper: with enough fuel, `pollAux` started below the first terminal
index returns that index's status. -/
theorem pollAux_complete (statuses : ℕ → BatchStatus) (N : ℕ) :
    ∀ fuel i, i ≤ N → N - i < fuel →
      (∀ j, i ≤ j → j < N → isTerminalBatch (statuses j) = false) →
      isTerminalBatch (statuses N) = true →
      pollAux statuses fuel i = some (statuses N, N) := by
  intro fuel
  induction fuel with
  | zero =>
    intro i _ h2 _ _
    omega
  | succ n ih =>
    intro i hiN hfuel hpre hterm
    simp only [pollAux]
    by_cases hi : i = N
    · subst hi
      rw [if_pos hterm]
    · have hlt : i < N := lt_of_le_of_ne hiN hi
      have hfalse : isTerminalBatch (statuses i) = false := hpre i le_rfl hlt
      rw [if_neg (by simp [hfalse])]
      exact ih (i + 1) (by omega) (by omega)
        (fun j hj hjN => hpre j (by omega) hjN) hterm

/-- Claim C8: if the fetched status sequence first turns terminal
(`Completed`, `Failed` or `Not Processed`) at fetch N, the polling loop
terminates and returns exactly that first terminal status, after N sleeps
of `BATCH_STATUS_POLLING_SLEEP = 5` seconds (one before every re-fetch);
and it never returns a non-terminal status, whatever the fuel. -/
theorem C8_poll_first_terminal (statuses : ℕ → BatchStatus) (N : ℕ)
    (hpre : ∀ j, j < N → isTerminalBatch (statuses j) = false)
    (hterm : isTerminalBatch (statuses N) = true) :
    (∀ fuel, N < fuel → _poll_on_batch_status statuses fuel = some (statuses N, N))
    ∧ (∀ fuel st k, _poll_on_batch_status statuses fuel = some (st, k) →
        isTerminalBatch st = true ∧ st = statuses N ∧ k = N)
    ∧ BATCH_STATUS_POLLING_SLEEP = 5 := by
  refine ⟨fun fuel hf => ?_, fun fuel st k h => ?_, rfl⟩
  · exact pollAux_complete statuses N fuel 0 (by omega) (by omega)
      (fun j _ hj => hpre j hj) hterm
  · obtain ⟨h1, h2, _, h4⟩ := pollAux_sound statuses fuel 0 st k h
    have hk : k = N := by
      by_contra hne
      rcases lt_or_gt_of_ne hne with hlt | hgt
      · rw [hpre k hlt] at h2
        exact Bool.false_ne_true h2
      · rw [h4 N (by omega) hgt] at hterm
        exact Bool.false_ne_true hterm
    subst hk
    exact ⟨h1 ▸ h2, h1, rfl⟩

/-- Claim C8, witness: two non-terminal fetches then `Completed`: the loop
returns the `Completed` status after exactly 2 sleeps. -/
theorem C8_poll_first_terminal_witness :
    _poll_on_batch_status pollWitnessStatuses 3
      = some (pollWitnessStatuses 2, 2) :=
  (C8_poll_first_terminal pollWitnessStatuses 2 (by decide) (by decide)).1 3 (by decide)

end TapSalesforce
